import Mathlib

set_option autoImplicit false

namespace CineSync

/-- One entry of the room's `participants` map (src/App.jsx lines 130-132):
`displayName`, `joinedAt`, `lastSeen`.  Timestamps are modelled as rationals. -/
structure Participant where
  displayName : String
  joinedAt : ℚ
  lastSeen : ℚ
deriving DecidableEq

/-- The shared room record stored under `watchPartyRooms/<roomId>`
(src/App.jsx lines 123-133).  `createRoom` always writes `currentTime`, and no
patch ever deletes it, so it is non-optional here; `lastSeekTime` is absent at
creation and only ever added by a seek or video change, so it is optional.
The `participants` map is modelled as an association list from participant id
to entry.  Seconds are rationals (JS numbers carrying times). -/
structure RoomData where
  id : String
  currentVideoUrl : String
  isPlaying : Bool
  currentTime : ℚ
  lastSeekTime : Option ℚ
  hostId : String
  createdAt : ℚ
  participants : List (String × Participant)
deriving DecidableEq

/-- A partial-field merge update sent with `updateDoc` (src/App.jsx lines
354-385 and 414): only the named fields are written, all others kept.
`none` means the field is absent from the patch. -/
structure RoomPatch where
  currentVideoUrl : Option String
  isPlaying : Option Bool
  currentTime : Option ℚ
  lastSeekTime : Option ℚ
  hostId : Option String
deriving DecidableEq

/-- Firestore merge semantics of `updateDoc` with a field patch: each field
named by the patch is overwritten, every other field of the record is kept.
`participants` and the immutable fields are never named by a player-action or
periodic patch, so they are always kept. -/
def applyPatch (r : RoomData) (p : RoomPatch) : RoomData :=
  { r with
    currentVideoUrl := p.currentVideoUrl.getD r.currentVideoUrl
    isPlaying := p.isPlaying.getD r.isPlaying
    currentTime := p.currentTime.getD r.currentTime
    lastSeekTime := if p.lastSeekTime.isSome then p.lastSeekTime else r.lastSeekTime
    hostId := p.hostId.getD r.hostId }

/-- The local `<video>` element's state as read by the source: `src`,
`paused`, `currentTime` (src/App.jsx lines 329-347, 354-364, 411-414). -/
structure PlayerState where
  src : String
  paused : Bool
  currentTime : ℚ
deriving DecidableEq

/-- The per-client component state of `Room` that the synchronization logic
reads and writes: `userId`, the last received `roomData` snapshot (null before
the first snapshot), the attached video element (`videoRef.current`, null when
no player is attached), the `isSeeking` flag, the periodic-write timestamp
`lastFirestoreUpdateTimeRef` (milliseconds), the `error` message and the video
URL input field (src/App.jsx lines 258-265). -/
structure ClientState where
  userId : String
  roomData : Option RoomData
  player : Option PlayerState
  isSeeking : Bool
  lastFirestoreUpdateTime : ℚ
  errorMsg : String
  videoUrlInput : String
deriving DecidableEq

/-- `SYNC_THRESHOLD = 1.5` seconds (src/App.jsx line 27). -/
def SYNC_THRESHOLD : ℚ := 1.5

/-- JS `url.trim()` returns the empty string exactly when every character of
`url` is whitespace; the source only uses `.trim()` for this emptiness test
(src/App.jsx line 367), so the test is embedded directly. -/
def isBlank (s : String) : Bool :=
  s.data.all fun ch => ch.isWhitespace

/-- The action objects dispatched to `handlePlayerAction`
(src/App.jsx lines 356-380). -/
inductive PlayerAction where
  | PLAY
  | PAUSE
  | SEEK (time : ℚ)
  | CHANGE_VIDEO (url : String)
deriving DecidableEq

/-- `handlePlayerAction` (src/App.jsx lines 351-392): returns the patch passed
to `updateDoc` (or `none` when no write is issued) together with the updated
client state.  The write itself is assumed to succeed (`setError('')` runs);
write failure is an external condition.  If `roomData` or the player is null
the handler returns immediately, touching nothing. -/
def handlePlayerAction (c : ClientState) (action : PlayerAction) :
    Option RoomPatch × ClientState :=
  match c.roomData, c.player with
  | none, _ => (none, c)
  | some _, none => (none, c)
  | some _, some player =>
    match action with
    | PlayerAction.PLAY =>
        (some { currentVideoUrl := none, isPlaying := some true,
                currentTime := some player.currentTime, lastSeekTime := none,
                hostId := some c.userId },
         { c with errorMsg := "" })
    | PlayerAction.PAUSE =>
        (some { currentVideoUrl := none, isPlaying := some false,
                currentTime := some player.currentTime, lastSeekTime := none,
                hostId := some c.userId },
         { c with errorMsg := "" })
    | PlayerAction.SEEK t =>
        (some { currentVideoUrl := none, isPlaying := some (!player.paused),
                currentTime := some t, lastSeekTime := some t,
                hostId := some c.userId },
         { c with errorMsg := "" })
    | PlayerAction.CHANGE_VIDEO url =>
        if isBlank url then
          (none, { c with errorMsg := "URL do vídeo não pode ser vazia." })
        else
          (some { currentVideoUrl := some url, isPlaying := some false,
                  currentTime := some 0, lastSeekTime := some 0,
                  hostId := some c.userId },
           { c with videoUrlInput := "", errorMsg := "" })

/-- `onPlay` handler on the video element (src/App.jsx line 395). -/
def onPlay (c : ClientState) : Option RoomPatch × ClientState :=
  handlePlayerAction c PlayerAction.PLAY

/-- `onPause` handler on the video element (src/App.jsx line 396). -/
def onPause (c : ClientState) : Option RoomPatch × ClientState :=
  handlePlayerAction c PlayerAction.PAUSE

/-- `onSeeked` handler (src/App.jsx lines 398-403): only when a player is
attached and `isSeeking` is set does it dispatch a SEEK action at the player's
current position and clear the flag. -/
def onSeeked (c : ClientState) : Option RoomPatch × ClientState :=
  match c.player with
  | none => (none, c)
  | some player =>
      if c.isSeeking then
        let r := handlePlayerAction c (PlayerAction.SEEK player.currentTime)
        (r.1, { r.2 with isSeeking := false })
      else
        (none, c)

/-- `onSeeking` handler (src/App.jsx lines 404-408): sets the `isSeeking`
flag whenever a player is attached. -/
def onSeeking (c : ClientState) : ClientState :=
  match c.player with
  | none => c
  | some _ => { c with isSeeking := true }

/-- `onTimeUpdate` handler (src/App.jsx lines 410-419): the periodic
drift-correction write.  `now` is `Date.now()` in milliseconds.  Emits the
patch naming only `currentTime`.  The handler itself changes no client state:
the source assigns `lastFirestoreUpdateTimeRef.current = now` only inside the
`updateDoc(...).then(...)` callback, which runs as a later event once the
write succeeds (and never runs on failure, where the catch only warns) — see
`onTimeUpdateAck`.  The returned state is therefore the entry state. -/
def onTimeUpdate (c : ClientState) (now : ℚ) : Option RoomPatch × ClientState :=
  match c.player, c.roomData with
  | some player, some r =>
      if r.hostId = c.userId ∧ player.paused = false ∧ c.isSeeking = false then
        if now - c.lastFirestoreUpdateTime > 5000 then
          (some { currentVideoUrl := none, isPlaying := none,
                  currentTime := some player.currentTime, lastSeekTime := none,
                  hostId := none },
           c)
        else
          (none, c)
      else
        (none, c)
  | _, _ => (none, c)

/-- The `.then` callback of a successful periodic write that was emitted at
clock reading `now` (src/App.jsx line 415): records `now` as the last
broadcast timestamp.  It runs as a separate, later event; while the write is
still in flight — or if it fails — the timestamp stays stale. -/
def onTimeUpdateAck (c : ClientState) (now : ℚ) : ClientState :=
  { c with lastFirestoreUpdateTime := now }

/-- The local player commands the inbound sync effect can issue
(src/App.jsx lines 332-347): load a new source, `player.play()`,
`player.pause()`, or assign `player.currentTime`. -/
inductive PlayerCommand where
  | loadSource (url : String)
  | play
  | pause
  | setPosition (t : ℚ)
deriving DecidableEq

/-- `lastSeekTime !== undefined ? lastSeekTime : currentTime`
(src/App.jsx line 343). -/
def targetTime (r : RoomData) : ℚ :=
  match r.lastSeekTime with
  | some t => t
  | none => r.currentTime

/-- The inbound sync effect body (src/App.jsx lines 327-349), as the list of
player commands it issues, in source order, computed from the player state at
entry.  `targetTime` is always defined here because `currentTime` is
non-optional (see `RoomData`), so the JS `targetTime !== undefined` guard is
always true. -/
def syncEffect (player : PlayerState) (r : RoomData) (seekingFlag : Bool) :
    List PlayerCommand :=
  (if r.currentVideoUrl ≠ "" ∧ player.src ≠ r.currentVideoUrl then
    [PlayerCommand.loadSource r.currentVideoUrl]
   else [])
  ++ (if r.isPlaying = true ∧ player.paused = true then
        [PlayerCommand.play]
      else if r.isPlaying = false ∧ player.paused = false then
        [PlayerCommand.pause]
      else [])
  ++ (if |player.currentTime - targetTime r| > SYNC_THRESHOLD ∧ seekingFlag = false then
        [PlayerCommand.setPosition (targetTime r)]
      else [])

/-- Effect of one player command on the element's own state. -/
def applyCommand (p : PlayerState) : PlayerCommand → PlayerState
  | PlayerCommand.loadSource url => { p with src := url }
  | PlayerCommand.play => { p with paused := false }
  | PlayerCommand.pause => { p with paused := true }
  | PlayerCommand.setPosition t => { p with currentTime := t }

/-- Effect of a command list on the element's state, in order. -/
def applyCommands (p : PlayerState) (cmds : List PlayerCommand) : PlayerState :=
  cmds.foldl applyCommand p

/-- Dispatch of one programmatic player command through the element's event
handlers.  Per the HTML media element specification, programmatic `play()`,
`pause()` and assignment to `currentTime` fire the same `play` / `pause` /
`seeking` / `seeked` events as user gestures, and the source attaches
`onPlay`, `onPause`, `onSeeking`, `onSeeked` to exactly these events
(src/App.jsx lines 553-561) with no flag distinguishing the initiator, so the
same handlers run.  Loading a source fires no event with a writing handler
attached (only `onError`).  Returns the outbound writes the handlers emit and
the resulting client state. -/
def dispatchCommand (c : ClientState) : PlayerCommand → List RoomPatch × ClientState
  | PlayerCommand.loadSource url =>
      ([], { c with player := c.player.map fun p => { p with src := url } })
  | PlayerCommand.play =>
      let c1 := { c with player := c.player.map fun p => { p with paused := false } }
      let r := onPlay c1
      (r.1.toList, r.2)
  | PlayerCommand.pause =>
      let c1 := { c with player := c.player.map fun p => { p with paused := true } }
      let r := onPause c1
      (r.1.toList, r.2)
  | PlayerCommand.setPosition t =>
      let c1 := { c with player := c.player.map fun p => { p with currentTime := t } }
      let c2 := onSeeking c1
      let r := onSeeked c2
      (r.1.toList, r.2)

/-- Dispatch of a command list, threading the client state and collecting all
outbound writes. -/
def dispatchCommands (c : ClientState) : List PlayerCommand → List RoomPatch × ClientState
  | [] => ([], c)
  | cmd :: cmds =>
      let r := dispatchCommand c cmd
      let rest := dispatchCommands r.2 cmds
      (r.1 ++ rest.1, rest.2)

/-- Processing of one remote room-update notification: the snapshot callback
stores the record (src/App.jsx lines 279-286), the sync effect runs
(lines 327-349) and computes its commands, and each issued command is then
dispatched through the element's event handlers (`dispatchCommand`).
Returns all outbound writes triggered by this single remote update. -/
def processRemoteUpdate (c : ClientState) (r : RoomData) : List RoomPatch × ClientState :=
  let c0 := { c with roomData := some r }
  match c0.player with
  | none => ([], c0)
  | some player => dispatchCommands c0 (syncEffect player r c0.isSeeking)

/-- Keys of the participants association list. -/
def keys (ps : List (String × Participant)) : List String :=
  ps.map Prod.fst

/-- Firestore dotted-path write `participants.<uid> = entry` used by
`joinRoom` (src/App.jsx lines 156-158): overwrites the entry when the key
exists, inserts it otherwise. -/
def setParticipant (ps : List (String × Participant)) (uid : String)
    (entry : Participant) : List (String × Participant) :=
  if uid ∈ keys ps then
    ps.map fun q => if q.1 = uid then (uid, entry) else q
  else
    ps ++ [(uid, entry)]

/-- Firestore dotted-path write `participants.<uid>.lastSeen = t` used by the
liveness interval (src/App.jsx lines 310-312) for a participant already in the
map. -/
def setLastSeen (ps : List (String × Participant)) (uid : String) (t : ℚ) :
    List (String × Participant) :=
  ps.map fun q => if q.1 = uid then (q.1, { q.2 with lastSeen := t }) else q

/-- The record written by `createRoom` (src/App.jsx lines 123-133): the
creator is both `hostId` and the sole participant; no `lastSeekTime` field. -/
def createRoomRecord (newRoomId uid name : String) (t : ℚ) : RoomData :=
  { id := newRoomId
    currentVideoUrl := ""
    isPlaying := false
    currentTime := 0
    lastSeekTime := none
    hostId := uid
    createdAt := t
    participants := [(uid, { displayName := name, joinedAt := t, lastSeen := t })] }

/-- The update performed by `joinRoom` on an existing room
(src/App.jsx lines 156-158). -/
def joinRoomUpdate (r : RoomData) (uid name : String) (t : ℚ) : RoomData :=
  let entry : Participant := { displayName := name, joinedAt := t, lastSeen := t }
  { r with participants := setParticipant r.participants uid entry }

/-- Room records reachable through the store operations of the source:
creation, joining, a player-action write from a client that has entered the
room (entering the room requires the successful `createRoom` or `joinRoom`
that put the client's id into `participants`), a periodic `onTimeUpdate`
write, and a liveness refresh for a present participant. -/
inductive Reachable : RoomData → Prop where
  | created (newRoomId uid name : String) (t : ℚ) :
      Reachable (createRoomRecord newRoomId uid name t)
  | joined (r : RoomData) (uid name : String) (t : ℚ) :
      Reachable r → Reachable (joinRoomUpdate r uid name t)
  | acted (r : RoomData) (c : ClientState) (a : PlayerAction) (p : RoomPatch) :
      Reachable r → c.roomData = some r → c.userId ∈ keys r.participants →
      (handlePlayerAction c a).1 = some p → Reachable (applyPatch r p)
  | timeUpdated (r : RoomData) (c : ClientState) (now : ℚ) (p : RoomPatch) :
      Reachable r → c.roomData = some r →
      (onTimeUpdate c now).1 = some p → Reachable (applyPatch r p)
  | refreshed (r : RoomData) (uid : String) (t : ℚ) :
      Reachable r → uid ∈ keys r.participants →
      Reachable ({ r with participants := setLastSeen r.participants uid t })

/-- A two-participant room used to evaluate the echo behaviour (C1). -/
def c1Room : RoomData :=
  { id := "room1", currentVideoUrl := "v.mp4", isPlaying := false, currentTime := 0,
    lastSeekTime := none, hostId := "alice", createdAt := 0,
    participants := [("alice", { displayName := "Alice", joinedAt := 0, lastSeen := 0 }),
                     ("bob", { displayName := "Bob", joinedAt := 0, lastSeen := 0 })] }

/-- The remote update arriving at client bob (C1): alice started playback at
position 100. -/
def c1Update : RoomData := { c1Room with isPlaying := true, currentTime := 100 }

/-- Client bob before the update (C1): same source loaded, paused at 0, not
seeking. -/
def c1Client : ClientState :=
  { userId := "bob", roomData := some c1Room,
    player := some { src := "v.mp4", paused := true, currentTime := 0 },
    isSeeking := false, lastFirestoreUpdateTime := 0, errorMsg := "", videoUrlInput := "" }

/-- Player used for the C2 witness: position 0. -/
def c2Player : PlayerState := { src := "v.mp4", paused := false, currentTime := 0 }

/-- Room for the C2 witness: `lastSeekTime` present and 10 seconds away. -/
def c2Room : RoomData :=
  { id := "room2", currentVideoUrl := "v.mp4", isPlaying := true, currentTime := 3,
    lastSeekTime := some 10, hostId := "alice", createdAt := 0,
    participants := [("alice", { displayName := "Alice", joinedAt := 0, lastSeen := 0 })] }

/-- Room for the C2 boundary witness: target exactly 1.5 seconds away from the
player of `c2Player`. -/
def c2BoundaryRoom : RoomData :=
  { c2Room with currentTime := 1.5, lastSeekTime := none }

/-- Room whose host is bob, for the C3 witness. -/
def c3Room : RoomData :=
  { id := "room3", currentVideoUrl := "v.mp4", isPlaying := true, currentTime := 40,
    lastSeekTime := none, hostId := "bob", createdAt := 0,
    participants := [("bob", { displayName := "Bob", joinedAt := 0, lastSeen := 0 })] }

/-- Host client playing and not seeking, for the C3 witness. -/
def c3Client : ClientState :=
  { userId := "bob", roomData := some c3Room,
    player := some { src := "v.mp4", paused := false, currentTime := 42 },
    isSeeking := false, lastFirestoreUpdateTime := 0, errorMsg := "", videoUrlInput := "" }

/-- The periodic patch the C3 witness expects: only `currentTime`. -/
def c3Patch : RoomPatch :=
  { currentVideoUrl := none, isPlaying := none, currentTime := some 42,
    lastSeekTime := none, hostId := none }

/-- Non-host client for the C3 witness. -/
def c3NonHostClient : ClientState := { c3Client with userId := "carol" }

/-- Room for the C4 counterexample. -/
def c4Room : RoomData :=
  { id := "room4", currentVideoUrl := "v.mp4", isPlaying := false, currentTime := 30,
    lastSeekTime := none, hostId := "alice", createdAt := 0,
    participants := [("alice", { displayName := "Alice", joinedAt := 0, lastSeen := 0 }),
                     ("bob", { displayName := "Bob", joinedAt := 0, lastSeen := 0 })] }

/-- Client in the middle of a scrub drag (`isSeeking = true`)
whose player fires a play event (C4). -/
def c4Client : ClientState :=
  { userId := "bob", roomData := some c4Room,
    player := some { src := "v.mp4", paused := true, currentTime := 30 },
    isSeeking := true, lastFirestoreUpdateTime := 0, errorMsg := "", videoUrlInput := "" }

/-- Room for the C5 theorems: position 120 and playing, as in the spec's
example. -/
def c5Room : RoomData :=
  { id := "room5", currentVideoUrl := "old.mp4", isPlaying := true, currentTime := 120,
    lastSeekTime := none, hostId := "alice", createdAt := 0,
    participants := [("alice", { displayName := "Alice", joinedAt := 0, lastSeen := 0 })] }

/-- Client for the C5 theorems. -/
def c5Client : ClientState :=
  { userId := "alice", roomData := some c5Room,
    player := some { src := "old.mp4", paused := false, currentTime := 120 },
    isSeeking := false, lastFirestoreUpdateTime := 0, errorMsg := "", videoUrlInput := "u" }

/-- Room for the C6 witness. -/
def c6Room : RoomData :=
  { id := "room6", currentVideoUrl := "v.mp4", isPlaying := false, currentTime := 7,
    lastSeekTime := none, hostId := "alice", createdAt := 0,
    participants := [("alice", { displayName := "Alice", joinedAt := 0, lastSeen := 0 })] }

/-- Client for the C6 witness. -/
def c6Client : ClientState :=
  { userId := "alice", roomData := some c6Room,
    player := some { src := "v.mp4", paused := true, currentTime := 7 },
    isSeeking := false, lastFirestoreUpdateTime := 0, errorMsg := "", videoUrlInput := "" }

/-- Room for the C7 witness. -/
def c7Room : RoomData :=
  { id := "room7", currentVideoUrl := "v.mp4", isPlaying := true, currentTime := 10,
    lastSeekTime := none, hostId := "alice", createdAt := 0,
    participants := [("alice", { displayName := "Alice", joinedAt := 0, lastSeen := 0 })] }

/-- Client completing a seek at position 33 while playing (C7). -/
def c7Client : ClientState :=
  { userId := "bob", roomData := some c7Room,
    player := some { src := "v.mp4", paused := false, currentTime := 33 },
    isSeeking := true, lastFirestoreUpdateTime := 0, errorMsg := "", videoUrlInput := "" }

/-- Room for the C8 witness. -/
def c8Room : RoomData :=
  { id := "room8", currentVideoUrl := "v.mp4", isPlaying := true, currentTime := 50,
    lastSeekTime := none, hostId := "alice", createdAt := 0,
    participants := [("alice", { displayName := "Alice", joinedAt := 0, lastSeen := 0 })] }

/-- A player already converged with `c8Room`: same source, playing, one second
away from the target. -/
def c8Player : PlayerState := { src := "v.mp4", paused := false, currentTime := 51 }

/-- Client with no room snapshot and no attached player (C10). -/
def c10Client : ClientState :=
  { userId := "bob", roomData := none, player := none, isSeeking := false,
    lastFirestoreUpdateTime := 0, errorMsg := "", videoUrlInput := "" }

/-- The inbound sync effect issues a position set exactly for the target
position, exactly when the threshold is strictly exceeded and no local seek is
in progress. -/
theorem setPosition_mem_syncEffect (pl : PlayerState) (r : RoomData) (sk : Bool)
    (t : ℚ) :
    PlayerCommand.setPosition t ∈ syncEffect pl r sk ↔
      t = targetTime r ∧ |pl.currentTime - targetTime r| > SYNC_THRESHOLD ∧
      sk = false := by
  unfold syncEffect
  simp only [List.mem_append]
  constructor
  · rintro ((h | h) | h)
    · split at h <;> simp_all
    · split at h
      · simp_all
      · split at h <;> simp_all
    · split at h
      case isTrue hc => simp only [List.mem_singleton, PlayerCommand.setPosition.injEq] at h
                        exact ⟨h, hc⟩
      case isFalse hc => simp at h
  · rintro ⟨rfl, h1, h2⟩
    right
    rw [if_pos ⟨h1, h2⟩]
    simp

/-- A patch emitted by `handlePlayerAction` always claims `hostId` for the
acting client. -/
theorem hostId_of_actionPatch (c : ClientState) (a : PlayerAction) (p : RoomPatch)
    (h : (handlePlayerAction c a).1 = some p) : p.hostId = some c.userId := by
  cases hr : c.roomData with
  | none => simp [handlePlayerAction, hr] at h
  | some r =>
    cases hp : c.player with
    | none => simp [handlePlayerAction, hr, hp] at h
    | some pl =>
      cases a with
      | PLAY =>
          simp only [handlePlayerAction, hr, hp, Option.some.injEq] at h
          rw [← h]
      | PAUSE =>
          simp only [handlePlayerAction, hr, hp, Option.some.injEq] at h
          rw [← h]
      | SEEK t =>
          simp only [handlePlayerAction, hr, hp, Option.some.injEq] at h
          rw [← h]
      | CHANGE_VIDEO u =>
          by_cases hb : isBlank u
          · simp [handlePlayerAction, hr, hp, hb] at h
          · simp only [handlePlayerAction, hr, hp, hb, Bool.false_eq_true,
              if_false, Option.some.injEq, reduceIte] at h
            rw [← h]

/-- If `onTimeUpdate` emits a patch, the client was the host, playing, not
seeking, more than 5000 ms had elapsed since the last recorded write
acknowledgment, and the patch names only `currentTime`. -/
theorem onTimeUpdate_emits (c : ClientState) (now : ℚ) (p : RoomPatch)
    (h : (onTimeUpdate c now).1 = some p) :
    ∃ r pl, c.roomData = some r ∧ c.player = some pl ∧
      r.hostId = c.userId ∧ pl.paused = false ∧ c.isSeeking = false ∧
      now - c.lastFirestoreUpdateTime > 5000 ∧
      p = { currentVideoUrl := none, isPlaying := none,
            currentTime := some pl.currentTime, lastSeekTime := none,
            hostId := none } := by
  cases hp : c.player with
  | none => simp [onTimeUpdate, hp] at h
  | some pl =>
    cases hr : c.roomData with
    | none => simp [onTimeUpdate, hp, hr] at h
    | some r =>
      simp only [onTimeUpdate, hp, hr] at h ⊢
      split at h
      case isTrue hg =>
        split at h
        case isTrue hrate =>
          simp only [Option.some.injEq] at h
          exact ⟨r, pl, rfl, rfl, hg.1, hg.2.1, hg.2.2, hrate, h.symm⟩
        case isFalse hrate => simp at h
      case isFalse hg => simp at h

/-- A `participants.<uid> = entry` write never removes a key. -/
theorem mem_keys_setParticipant (ps : List (String × Participant)) (uid x : String)
    (entry : Participant) (hx : x ∈ keys ps) :
    x ∈ keys (setParticipant ps uid entry) := by
  unfold setParticipant
  split
  case isTrue h =>
    have hkeys : keys (ps.map fun q => if q.1 = uid then (uid, entry) else q) = keys ps := by
      unfold keys
      rw [List.map_map]
      congr 1
      funext q
      by_cases hq : q.1 = uid <;> simp [hq]
    rw [hkeys]
    exact hx
  case isFalse h =>
    unfold keys at hx ⊢
    rw [List.map_append]
    exact List.mem_append_left _ hx

/-- A `participants.<uid>.lastSeen` refresh does not change the key set. -/
theorem keys_setLastSeen (ps : List (String × Participant)) (uid : String) (t : ℚ) :
    keys (setLastSeen ps uid t) = keys ps := by
  unfold keys setLastSeen
  rw [List.map_map]
  congr 1
  funext q
  by_cases hq : q.1 = uid <;> simp [hq]

/-- When a drag was in progress, the `seeked` event emits the seek patch at
the player's position and clears the flag. -/
theorem onSeeked_emits (c : ClientState) (r : RoomData) (pl : PlayerState)
    (hr : c.roomData = some r) (hp : c.player = some pl) (hs : c.isSeeking = true) :
    (onSeeked c).1 = some
      { currentVideoUrl := none, isPlaying := some (!pl.paused),
        currentTime := some pl.currentTime, lastSeekTime := some pl.currentTime,
        hostId := some c.userId } ∧
    (onSeeked c).2.isSeeking = false := by
  simp [onSeeked, handlePlayerAction, hr, hp, hs]

/-- C1: the claim states that processing a single remote update triggers at
most one outbound write and that inbound-correction player transitions are not
re-emitted.  On the failing input — client bob paused at position 0 with the
source loaded and not seeking, receiving the update with `isPlaying = true`
and `currentTime = 100` — the code emits TWO outbound writes: the inbound
`player.play()` fires the `play` event whose handler writes
`(isPlaying: true, currentTime: 0, hostId: bob)`, and the inbound
`player.currentTime = 100` fires `seeking`/`seeked`, which set the
`isSeeking` flag and then write the full seek patch, both claiming `hostId`
for bob.  No flag in the source distinguishes these programmatic transitions
from user gestures. -/
theorem c1_remote_update_reemits_two_writes :
    (processRemoteUpdate c1Client c1Update).1 =
      [{ currentVideoUrl := none, isPlaying := some true, currentTime := some 0,
         lastSeekTime := none, hostId := some "bob" },
       { currentVideoUrl := none, isPlaying := some true, currentTime := some 100,
         lastSeekTime := some 100, hostId := some "bob" }] := by
  norm_num [processRemoteUpdate, dispatchCommands, dispatchCommand, syncEffect,
    targetTime, SYNC_THRESHOLD, onPlay, onPause, onSeeking, onSeeked,
    handlePlayerAction, c1Client, c1Update, c1Room]

/-- C2: for every inbound room update, the reconciliation target is
`lastSeekTime` when present and `currentTime` otherwise, and the inbound sync
effect issues a forced position set exactly when the absolute difference
between the local playback position and the target is strictly greater than
the 1.5-second threshold and the client is not in an active local seek (so a
difference of exactly 1.5 does not force a correction). -/
theorem c2_reconciliation_target_and_threshold (pl : PlayerState) (r : RoomData)
    (sk : Bool) :
    (∀ t : ℚ, r.lastSeekTime = some t → targetTime r = t) ∧
    (r.lastSeekTime = none → targetTime r = r.currentTime) ∧
    (∀ t : ℚ, PlayerCommand.setPosition t ∈ syncEffect pl r sk ↔
      t = targetTime r ∧ |pl.currentTime - targetTime r| > SYNC_THRESHOLD ∧
      sk = false) :=
  ⟨fun t h => by simp [targetTime, h],
   fun h => by simp [targetTime, h],
   fun t => setPosition_mem_syncEffect pl r sk t⟩

/-- Witness for C2: with `lastSeekTime = 10` and local position 0 the effect
forces the position to 10; with the target exactly 1.5 seconds away no
position set is issued. -/
theorem c2_witness :
    PlayerCommand.setPosition 10 ∈ syncEffect c2Player c2Room false ∧
    PlayerCommand.setPosition (targetTime c2BoundaryRoom) ∉
      syncEffect c2Player c2BoundaryRoom false := by
  constructor
  · exact ((c2_reconciliation_target_and_threshold c2Player c2Room false).2.2 10).mpr
      ⟨by simp [c2Room, targetTime],
       by norm_num [c2Player, c2Room, targetTime, SYNC_THRESHOLD], rfl⟩
  · intro h
    have h2 := ((c2_reconciliation_target_and_threshold c2Player c2BoundaryRoom
      false).2.2 (targetTime c2BoundaryRoom)).mp h
    norm_num [c2Player, c2Room, c2BoundaryRoom, targetTime, SYNC_THRESHOLD] at h2
    rw [abs_of_nonneg (by norm_num : (0 : ℚ) ≤ 3 / 2)] at h2
    exact absurd h2 (lt_irrefl _)

/-- C10: a player action invoked before the room snapshot has arrived
(`roomData` null) or with no attached player (`videoRef.current` null) is a
silent no-op: no write is issued, no error is reported, no state changes. -/
theorem c10_action_without_room_or_player_noop (c : ClientState) (a : PlayerAction)
    (h : c.roomData = none ∨ c.player = none) :
    handlePlayerAction c a = (none, c) := by
  cases hr : c.roomData with
  | none => cases a <;> simp [handlePlayerAction, hr]
  | some r =>
    cases hp : c.player with
    | none => cases a <;> simp [handlePlayerAction, hr, hp]
    | some pl => simp [hr, hp] at h

/-- Witness for C10 at a client with neither snapshot nor player. -/
theorem c10_witness :
    handlePlayerAction c10Client PlayerAction.PLAY = (none, c10Client) :=
  c10_action_without_room_or_player_noop c10Client PlayerAction.PLAY (Or.inl rfl)

/-- C5 counterexample: the URL consisting of one space is non-empty, yet the
video-change action issues no write at all — the claim, which promises the
full reset patch for every non-empty URL, fails on whitespace-only URLs
because the code validates `url.trim()`. -/
theorem c5_counterexample :
    (" " : String) ≠ "" ∧
    (handlePlayerAction c5Client (PlayerAction.CHANGE_VIDEO " ")).1 = none := by
  refine ⟨by decide, ?_⟩
  simp [handlePlayerAction, c5Client, isBlank]

/-- C5 (amended): for every video-change action whose URL is non-blank (its
trimmed form is non-empty), the outbound write is exactly the patch
`(currentVideoUrl: u, isPlaying: false, currentTime: 0, lastSeekTime: 0,
hostId: self)`, and merging that patch into a room in state
`(currentTime: 120, isPlaying: true)` yields the reset room. -/
theorem c5_video_change_write (c : ClientState) (r : RoomData) (pl : PlayerState)
    (u : String) (hr : c.roomData = some r) (hp : c.player = some pl)
    (hu : isBlank u = false) :
    (handlePlayerAction c (PlayerAction.CHANGE_VIDEO u)).1 = some
      { currentVideoUrl := some u, isPlaying := some false, currentTime := some 0,
        lastSeekTime := some 0, hostId := some c.userId } ∧
    applyPatch ({ r with currentTime := 120, isPlaying := true })
      ({ currentVideoUrl := some u, isPlaying := some false, currentTime := some 0,
         lastSeekTime := some 0, hostId := some c.userId }) =
      { r with
        currentVideoUrl := u, isPlaying := false, currentTime := 0,
        lastSeekTime := some 0, hostId := c.userId } := by
  constructor
  · simp [handlePlayerAction, hr, hp, hu]
  · rfl

/-- Witness for C5 at the spec's concrete example. -/
theorem c5_witness :
    (handlePlayerAction c5Client (PlayerAction.CHANGE_VIDEO "https://x/y.mp4")).1 = some
      { currentVideoUrl := some "https://x/y.mp4", isPlaying := some false,
        currentTime := some 0, lastSeekTime := some 0, hostId := some "alice" } ∧
    applyPatch ({ c5Room with currentTime := 120, isPlaying := true })
      ({ currentVideoUrl := some "https://x/y.mp4", isPlaying := some false,
         currentTime := some 0, lastSeekTime := some 0, hostId := some "alice" }) =
      { c5Room with
        currentVideoUrl := "https://x/y.mp4", isPlaying := false,
        currentTime := 0, lastSeekTime := some 0, hostId := "alice" } :=
  c5_video_change_write c5Client c5Room
    ({ src := "old.mp4", paused := false, currentTime := 120 })
    "https://x/y.mp4" rfl rfl (by decide)

/-- C6: in a running room (snapshot received, player attached), a video-change
action whose URL is empty or whitespace-only is rejected before any store
write: no patch is issued, the non-empty validation message is set, and
nothing else of the client state changes — hence the shared room record is
untouched. -/
theorem c6_blank_url_rejected (c : ClientState) (r : RoomData) (pl : PlayerState)
    (u : String) (hr : c.roomData = some r) (hp : c.player = some pl)
    (hu : isBlank u = true) :
    (handlePlayerAction c (PlayerAction.CHANGE_VIDEO u)).1 = none ∧
    (handlePlayerAction c (PlayerAction.CHANGE_VIDEO u)).2 =
      { c with errorMsg := "URL do vídeo não pode ser vazia." } ∧
    ("URL do vídeo não pode ser vazia." : String) ≠ "" := by
  refine ⟨?_, ?_, by decide⟩ <;> simp [handlePlayerAction, hr, hp, hu]

/-- Witness for C6 at the empty URL and at a whitespace-only URL. -/
theorem c6_witness :
    ((handlePlayerAction c6Client (PlayerAction.CHANGE_VIDEO "")).1 = none ∧
     (handlePlayerAction c6Client (PlayerAction.CHANGE_VIDEO "")).2 =
       { c6Client with errorMsg := "URL do vídeo não pode ser vazia." } ∧
     ("URL do vídeo não pode ser vazia." : String) ≠ "") ∧
    (handlePlayerAction c6Client (PlayerAction.CHANGE_VIDEO "   ")).1 = none :=
  ⟨c6_blank_url_rejected c6Client c6Room
      ({ src := "v.mp4", paused := true, currentTime := 7 }) "" rfl rfl (by decide),
   (c6_blank_url_rejected c6Client c6Room
      ({ src := "v.mp4", paused := true, currentTime := 7 }) "   " rfl rfl (by decide)).1⟩

/-- C7: a seek-completion event processed while the local drag flag is set
(the completion is what ends the active seek) emits exactly the patch
`(currentTime: p, lastSeekTime: p, isPlaying: not paused, hostId: self)` at
the player's position `p`, and clears the flag. -/
theorem c7_seek_completion_write (c : ClientState) (r : RoomData) (pl : PlayerState)
    (hr : c.roomData = some r) (hp : c.player = some pl) (hs : c.isSeeking = true) :
    (onSeeked c).1 = some
      { currentVideoUrl := none, isPlaying := some (!pl.paused),
        currentTime := some pl.currentTime, lastSeekTime := some pl.currentTime,
        hostId := some c.userId } ∧
    (onSeeked c).2.isSeeking = false :=
  onSeeked_emits c r pl hr hp hs

/-- Witness for C7: seek completion at position 33 while playing. -/
theorem c7_witness :
    (onSeeked c7Client).1 = some
      { currentVideoUrl := none, isPlaying := some true, currentTime := some 33,
        lastSeekTime := some 33, hostId := some "bob" } ∧
    (onSeeked c7Client).2.isSeeking = false :=
  c7_seek_completion_write c7Client c7Room
    ({ src := "v.mp4", paused := false, currentTime := 33 }) rfl rfl rfl

/-- C8: applying the inbound reconciliation on a client already converged with
the record — same loaded source, matching play/pause flag, local position
within the 1.5-second threshold of the target — issues no player command, so
the player state is unchanged and a second application of the same record is
likewise a no-op. -/
theorem c8_converged_inbound_noop (pl : PlayerState) (r : RoomData) (sk : Bool)
    (hsrc : pl.src = r.currentVideoUrl) (hpp : pl.paused = !r.isPlaying)
    (hpos : |pl.currentTime - targetTime r| ≤ SYNC_THRESHOLD) :
    syncEffect pl r sk = [] ∧ applyCommands pl (syncEffect pl r sk) = pl ∧
    syncEffect (applyCommands pl (syncEffect pl r sk)) r sk = [] := by
  have h1 : syncEffect pl r sk = [] := by
    unfold syncEffect
    have hload : ¬(r.currentVideoUrl ≠ "" ∧ pl.src ≠ r.currentVideoUrl) := by
      rintro ⟨-, hne⟩
      exact hne hsrc
    have hplay : ¬(r.isPlaying = true ∧ pl.paused = true) := by
      rintro ⟨hb, hpa⟩
      rw [hpp, hb] at hpa
      simp at hpa
    have hpause : ¬(r.isPlaying = false ∧ pl.paused = false) := by
      rintro ⟨hb, hpa⟩
      rw [hpp, hb] at hpa
      simp at hpa
    have hseek : ¬(|pl.currentTime - targetTime r| > SYNC_THRESHOLD ∧ sk = false) := by
      rintro ⟨hgt, -⟩
      exact absurd hpos (not_le.mpr hgt)
    simp [hload, hplay, hpause, hseek]
  refine ⟨h1, by rw [h1]; rfl, by rw [h1]; exact h1⟩

/-- Witness for C8 at a client one second away from the target. -/
theorem c8_witness :
    syncEffect c8Player c8Room false = [] ∧
    applyCommands c8Player (syncEffect c8Player c8Room false) = c8Player ∧
    syncEffect (applyCommands c8Player (syncEffect c8Player c8Room false))
      c8Room false = [] := by
  have habs : |c8Player.currentTime - targetTime c8Room| = 1 := by
    rw [show c8Player.currentTime - targetTime c8Room = 1 from by
      norm_num [c8Player, c8Room, targetTime]]
    exact abs_of_nonneg (by norm_num)
  exact c8_converged_inbound_noop c8Player c8Room false rfl rfl
    (by rw [habs]; norm_num [SYNC_THRESHOLD])

/-- C3 counterexample: the claim states that no two periodic writes from the
same client are emitted less than 5 seconds apart.  But the source records
`lastFirestoreUpdateTimeRef` only in `updateDoc`'s `.then`, so while the write
emitted at 6000 ms is still in flight (its acknowledgment not yet processed),
the timeupdate at 6300 ms compares against the stale timestamp 0, passes the
5000 ms check, and emits again — two periodic writes 300 ms apart. -/
theorem c3_counterexample :
    (onTimeUpdate c3Client 6000).1 = some c3Patch ∧
    (onTimeUpdate (onTimeUpdate c3Client 6000).2 6300).1 = some c3Patch ∧
    (6300 : ℚ) - 6000 < 5000 := by
  refine ⟨?_, ?_, by norm_num⟩ <;>
    norm_num [onTimeUpdate, c3Client, c3Room, c3Patch]

/-- C3 (amended): a periodic drift-correction write is emitted only when the
acting participant's id equals the room's `hostId`, the player is playing and
no local seek is in progress; the emitted patch names only `currentTime`; a
participant whose id differs from `hostId` never emits one; and each emission
requires more than 5000 ms since the last recorded write acknowledgment, so
two periodic writes separated by a processed acknowledgment are more than 5
seconds apart — while an acknowledgment is pending, however, further
timeupdate events may emit again sooner. -/
theorem c3_periodic_writes_host_only_ack_rate_limited (c : ClientState) :
    (∀ t p, (onTimeUpdate c t).1 = some p →
      ∃ r pl, c.roomData = some r ∧ c.player = some pl ∧
        r.hostId = c.userId ∧ pl.paused = false ∧ c.isSeeking = false ∧
        t - c.lastFirestoreUpdateTime > 5000 ∧
        p = { currentVideoUrl := none, isPlaying := none,
              currentTime := some pl.currentTime, lastSeekTime := none,
              hostId := none }) ∧
    (∀ r, c.roomData = some r → r.hostId ≠ c.userId →
      ∀ t, (onTimeUpdate c t).1 = none) ∧
    (∀ t1 t2 p2, (onTimeUpdate (onTimeUpdateAck c t1) t2).1 = some p2 →
      t2 - t1 > 5000) := by
  refine ⟨fun t p h => onTimeUpdate_emits c t p h, ?_, ?_⟩
  · intro r hr hhost t
    cases hopt : (onTimeUpdate c t).1 with
    | none => rfl
    | some p =>
        exfalso
        obtain ⟨r1, pl1, hr1, -, hh1, -, -, -, -⟩ := onTimeUpdate_emits c t p hopt
        rw [hr] at hr1
        injection hr1 with hr2
        rw [← hr2] at hh1
        exact hhost hh1
  · intro t1 t2 p2 h
    obtain ⟨r1, pl1, -, -, -, -, -, hgap, -⟩ :=
      onTimeUpdate_emits (onTimeUpdateAck c t1) t2 p2 h
    exact hgap

/-- Witness for C3: a concrete emission of the host has the
`currentTime`-only shape, a non-host client emits nothing, and after a
processed acknowledgment at 6000 ms the timeupdate at 10000 ms (4 seconds
later) emits nothing. -/
theorem c3_witness :
    (∃ r pl, c3Client.roomData = some r ∧ c3Client.player = some pl ∧
      r.hostId = c3Client.userId ∧ pl.paused = false ∧ c3Client.isSeeking = false ∧
      (6000 : ℚ) - c3Client.lastFirestoreUpdateTime > 5000 ∧
      c3Patch = { currentVideoUrl := none, isPlaying := none,
                  currentTime := some pl.currentTime, lastSeekTime := none,
                  hostId := none }) ∧
    (onTimeUpdate c3NonHostClient 6000).1 = none ∧
    (onTimeUpdate (onTimeUpdateAck c3Client 6000) 10000).1 = none := by
  refine ⟨(c3_periodic_writes_host_only_ack_rate_limited c3Client).1 6000 c3Patch (by
      norm_num [onTimeUpdate, c3Client, c3Room, c3Patch]),
    (c3_periodic_writes_host_only_ack_rate_limited c3NonHostClient).2.1 c3Room rfl
      (by decide) 6000, ?_⟩
  cases hopt : (onTimeUpdate (onTimeUpdateAck c3Client 6000) 10000).1 with
  | none => rfl
  | some p2 =>
      exfalso
      have hgap := (c3_periodic_writes_host_only_ack_rate_limited c3Client).2.2
        6000 10000 p2 hopt
      norm_num at hgap

/-- C4 counterexample: a client in the middle of a scrub drag
(`isSeeking = true`) still emits an outbound write when its player fires a
play event — `handlePlayerAction` has no `isSeeking` guard for PLAY/PAUSE —
contradicting the claim that no outbound write occurs while seeking. -/
theorem c4_counterexample :
    c4Client.isSeeking = true ∧ (onPlay c4Client).1 ≠ none := by decide

/-- C4 (amended): while `seeking == true`, no periodic time-update write is
emitted and the inbound reconciliation issues no position correction; the
seek-completion event emits the single seek write and clears the flag; play
and pause events, however, are not suppressed. -/
theorem c4_seeking_suppresses_periodic_and_position (c : ClientState) (t : ℚ)
    (pl : PlayerState) (r : RoomData) (hs : c.isSeeking = true) :
    (onTimeUpdate c t).1 = none ∧
    (∀ u : ℚ, PlayerCommand.setPosition u ∉ syncEffect pl r true) ∧
    (∀ pl' r', c.player = some pl' → c.roomData = some r' →
      (onSeeked c).1 = some
        { currentVideoUrl := none, isPlaying := some (!pl'.paused),
          currentTime := some pl'.currentTime, lastSeekTime := some pl'.currentTime,
          hostId := some c.userId } ∧
      (onSeeked c).2.isSeeking = false) := by
  refine ⟨?_, ?_, ?_⟩
  · cases hopt : (onTimeUpdate c t).1 with
    | none => rfl
    | some p =>
        exfalso
        obtain ⟨-, -, -, -, -, -, h5, -, -⟩ := onTimeUpdate_emits c t p hopt
        rw [hs] at h5
        exact absurd h5 (by decide)
  · intro u h
    rw [setPosition_mem_syncEffect] at h
    exact absurd h.2.2 (by decide)
  · intro pl' r' hp' hr'
    exact onSeeked_emits c r' pl' hr' hp' hs

/-- Witness for C4 at a dragging client. -/
theorem c4_witness :
    (onTimeUpdate c4Client 99999).1 = none ∧
    (∀ u : ℚ, PlayerCommand.setPosition u ∉
      syncEffect ({ src := "v.mp4", paused := true, currentTime := 30 }) c4Room true) ∧
    ((onSeeked c4Client).1 = some
        { currentVideoUrl := none, isPlaying := some false, currentTime := some 30,
          lastSeekTime := some 30, hostId := some "bob" } ∧
      (onSeeked c4Client).2.isSeeking = false) := by
  obtain ⟨h1, h2, h3⟩ := c4_seeking_suppresses_periodic_and_position c4Client 99999
    ({ src := "v.mp4", paused := true, currentTime := 30 }) c4Room rfl
  exact ⟨h1, h2, h3 ({ src := "v.mp4", paused := true, currentTime := 30 }) c4Room rfl rfl⟩

/-- C9: every reachable room record keeps `hostId` among the keys of
`participants` — creation puts the creator in both, joining only adds keys,
every action patch claims `hostId` for an acting participant already present,
periodic patches leave `hostId` alone, and liveness refreshes keep the key
set. -/
theorem c9_hostId_in_participants (r : RoomData) (h : Reachable r) :
    r.hostId ∈ keys r.participants := by
  induction h with
  | created nid uid name t => simp [createRoomRecord, keys]
  | joined r uid name t hr ih =>
      show r.hostId ∈ keys (setParticipant r.participants uid
        ({ displayName := name, joinedAt := t, lastSeen := t }))
      exact mem_keys_setParticipant r.participants uid r.hostId _ ih
  | acted r c a p hr hcr hmem hpatch ih =>
      have hhost := hostId_of_actionPatch c a p hpatch
      show (p.hostId.getD r.hostId) ∈ keys r.participants
      rw [hhost]
      exact hmem
  | timeUpdated r c now p hr hcr hpatch ih =>
      obtain ⟨r1, pl1, -, -, -, -, -, -, hshape⟩ := onTimeUpdate_emits c now p hpatch
      show (p.hostId.getD r.hostId) ∈ keys r.participants
      rw [hshape]
      exact ih
  | refreshed r uid t hr hmem ih =>
      show r.hostId ∈ keys (setLastSeen r.participants uid t)
      rw [keys_setLastSeen]
      exact ih

/-- Witness for C9 at a freshly created room. -/
theorem c9_witness :
    (createRoomRecord "r1" "alice" "Alice" 0).hostId ∈
      keys (createRoomRecord "r1" "alice" "Alice" 0).participants :=
  c9_hostId_in_participants (createRoomRecord "r1" "alice" "Alice" 0)
    (Reachable.created "r1" "alice" "Alice" 0)

end CineSync
